import Mathlib

/-!
Shallow embedding of the OCI registry manifest handlers of
`internal/registry/manifest.go` (package `registry` of the distr
repository).  The external collaborators (manifest store, blob store,
authorizer) are parameters of the handler functions, mirroring the
interfaces the Go code consumes.  Byte strings are `List Nat`, machine
integers are `Int`/`Nat`.  The byte-level JSON decoder of `encoding/json`
is abstracted as a function `List Nat → Option Json` passed to each
handler that parses a body; the struct-level decoding rules (zero values
for absent fields, errors for ill-typed fields) are embedded explicitly.
-/

namespace Registry

/-- JSON values, modelling the parsed form of manifest bodies.  `none` at
the level of `List Nat → Option Json` models bytes that are not valid
JSON. -/
inductive Json where
  | null
  | bool (b : Bool)
  | num (n : Int)
  | str (s : String)
  | arr (elems : List Json)
  | obj (fields : List (String × Json))

/-- Field lookup in a JSON object, as `encoding/json` matches a field tag. -/
def getField : List (String × Json) → String → Option Json
  | [], _ => none
  | (k, v) :: rest, key => if k == key then some v else getField rest key

/-- Media type constant `types.OCIImageIndex` of go-containerregistry. -/
def ociImageIndex : String := "application/vnd.oci.image.index.v1+json"

/-- Media type constant `types.OCIManifestSchema1`. -/
def ociManifestSchema1 : String := "application/vnd.oci.image.manifest.v1+json"

/-- Media type constant `types.DockerManifestList`. -/
def dockerManifestList : String := "application/vnd.docker.distribution.manifest.list.v2+json"

/-- Media type constant `types.DockerManifestSchema2`. -/
def dockerManifestSchema2 : String := "application/vnd.docker.distribution.manifest.v2+json"

/-- Media type constant `types.DockerForeignLayer`. -/
def dockerForeignLayer : String := "application/vnd.docker.image.rootfs.foreign.diff.tar.gzip"

/-- Media type constant `types.OCIRestrictedLayer`. -/
def ociRestrictedLayer : String := "application/vnd.oci.image.layer.nondistributable.v1.tar+gzip"

/-- Media type constant `types.OCIUncompressedRestrictedLayer`. -/
def ociUncompressedRestrictedLayer : String := "application/vnd.oci.image.layer.nondistributable.v1.tar"

/-- Model of `types.MediaType.IsIndex`. -/
def isIndexMT (m : String) : Bool := m == ociImageIndex || m == dockerManifestList

/-- Model of `types.MediaType.IsImage`. -/
def isImageMT (m : String) : Bool := m == ociManifestSchema1 || m == dockerManifestSchema2

/-- Model of `types.MediaType.IsDistributable`. -/
def isDistributableMT (m : String) : Bool :=
  !(m == dockerForeignLayer || m == ociRestrictedLayer || m == ociUncompressedRestrictedLayer)

/-- Model of `v1.Hash`: an algorithm paired with a hex string. -/
structure Hash where
  algorithm : String
  hex : String
deriving DecidableEq

/-- Model of `v1.Hash.String`. -/
def Hash.string (h : Hash) : String := h.algorithm ++ ":" ++ h.hex

/-- Hex characters accepted by `v1.Hash.parse` (`TrimLeft` cutset
`0123456789abcdef`). -/
def isHexLower (c : Char) : Bool :=
  c.isDigit || (decide (97 ≤ c.toNat) && decide (c.toNat ≤ 102))

/-- Splitting of a character list on `:`, as `strings.Split(s, ":")`
renders its parts. -/
def splitOnColon : List Char → List (List Char)
  | [] => [[]]
  | c :: rest =>
    if c == ':' then [] :: splitOnColon rest
    else
      match splitOnColon rest with
      | h :: t => (c :: h) :: t
      | [] => [[c]]

/-- Model of `v1.NewHash`: exactly one colon, only lowercase hex digits in
the second part, a supported algorithm (`sha256` is the only one
`v1.Hasher` accepts) and 64 hex digits. -/
def newHash (s : String) : Option Hash :=
  match splitOnColon s.toList with
  | [alg, hx] =>
    if hx.all isHexLower then
      if String.mk alg == "sha256" && hx.length == 64 then
        some ⟨String.mk alg, String.mk hx⟩
      else none
    else none
  | _ => none

/-- Model of `v1.Descriptor`, restricted to the fields the handlers read. -/
structure Descriptor where
  mediaType : String
  size : Int
  digest : Hash
deriving DecidableEq

/-- Decode a Go `string` struct field: absent or `null` keeps the zero
value, a JSON string is taken verbatim, any other value is an
unmarshalling error (`none`). -/
def decodeStringField (fields : List (String × Json)) (key : String) : Option String :=
  match getField fields key with
  | none => some ""
  | some Json.null => some ""
  | some (Json.str s) => some s
  | some _ => none

/-- Decode a Go `int64` struct field: absent or `null` keeps zero, a JSON
number is taken, any other value is an unmarshalling error. -/
def decodeIntField (fields : List (String × Json)) (key : String) : Option Int :=
  match getField fields key with
  | none => some 0
  | some Json.null => some 0
  | some (Json.num n) => some n
  | some _ => none

/-- Decode a `v1.Hash` struct field.  `Hash.UnmarshalJSON` runs `NewHash`
on the raw token (including for a JSON `null`, which fails), so any
present value that is not a valid digest string is an error; an absent
field keeps the zero hash. -/
def decodeHashField (fields : List (String × Json)) (key : String) : Option Hash :=
  match getField fields key with
  | none => some ⟨"", ""⟩
  | some (Json.str s) => newHash s
  | some _ => none

/-- Decode a `v1.Descriptor` from a JSON value, as `encoding/json` does:
an object decodes field-wise, `null` keeps the zero value, anything else
errors. -/
def parseDescriptor : Json → Option Descriptor
  | Json.obj fields =>
    match decodeStringField fields "mediaType", decodeIntField fields "size",
        decodeHashField fields "digest" with
    | some mt, some sz, some dg => some ⟨mt, sz, dg⟩
    | _, _, _ => none
  | Json.null => some ⟨"", 0, ⟨"", ""⟩⟩
  | _ => none

/-- Decode a JSON array of descriptors; any element error fails the whole
decode, as for a Go slice field. -/
def decodeDescriptorList : List Json → Option (List Descriptor)
  | [] => some []
  | j :: rest =>
    match parseDescriptor j, decodeDescriptorList rest with
    | some d, some ds => some (d :: ds)
    | _, _ => none

/-- Model of `v1.IndexManifest`, restricted to the field the handler
reads. -/
structure IndexManifest where
  manifests : List Descriptor
deriving DecidableEq

/-- Model of `v1.ParseIndexManifest` applied to the parsed body: invalid
JSON bytes (`none`) fail, a top-level object decodes its `manifests`
array (absent or `null` gives the empty list), `null` decodes to the zero
manifest, anything else errors. -/
def parseIndexManifest : Option Json → Option IndexManifest
  | none => none
  | some (Json.obj fields) =>
    match getField fields "manifests" with
    | none => some ⟨[]⟩
    | some Json.null => some ⟨[]⟩
    | some (Json.arr xs) => (decodeDescriptorList xs).map IndexManifest.mk
    | some _ => none
  | some Json.null => some ⟨[]⟩
  | some _ => none

/-- Model of `v1.Manifest`, restricted to the fields `handlePut` reads. -/
structure ImageManifest where
  config : Descriptor
  layers : List Descriptor
  subject : Option Descriptor
deriving DecidableEq

/-- Decode the optional `subject` pointer field: absent or `null` leaves
the pointer `nil`, an object decodes as a descriptor, anything else
errors. -/
def decodeSubjectField (fields : List (String × Json)) : Option (Option Descriptor)  :=
  match getField fields "subject" with
  | none => some none
  | some Json.null => some none
  | some j => (parseDescriptor j).map some

/-- Decode the `layers` slice field. -/
def decodeLayersField (fields : List (String × Json)) : Option (List Descriptor) :=
  match getField fields "layers" with
  | none => some []
  | some Json.null => some []
  | some (Json.arr xs) => decodeDescriptorList xs
  | some _ => none

/-- Decode the `config` descriptor field: absent keeps the zero
descriptor. -/
def decodeConfigField (fields : List (String × Json)) : Option Descriptor :=
  match getField fields "config" with
  | none => some ⟨"", 0, ⟨"", ""⟩⟩
  | some j => parseDescriptor j

/-- Model of `v1.ParseManifest` applied to the parsed body. -/
def parseManifest : Option Json → Option ImageManifest
  | none => none
  | some (Json.obj fields) =>
    match decodeConfigField fields, decodeLayersField fields, decodeSubjectField fields with
    | some c, some l, some s => some ⟨c, l, s⟩
    | _, _, _ => none
  | some Json.null => some ⟨⟨"", 0, ⟨"", ""⟩⟩, [], none⟩
  | some _ => none

/-- Wire-level registry error: HTTP status, OCI error code and message,
modelling the Go `regError`. -/
structure RegError where
  status : Nat
  code : String
  message : String
deriving DecidableEq

/-- Modelled from the spec: `regErrManifestUnknown` lives in `error.go` of
package registry, which is not under `src/`; section 4.6 of the spec maps
an unknown manifest to HTTP 404 with code `MANIFEST_UNKNOWN`. -/
def regErrManifestUnknown : RegError := ⟨404, "MANIFEST_UNKNOWN", "Unknown manifest"⟩

/-- Modelled from the spec: `regErrNameUnknown` (unknown repo), HTTP 404,
code `NAME_UNKNOWN` per section 4.6. -/
def regErrNameUnknown : RegError := ⟨404, "NAME_UNKNOWN", "Unknown name"⟩

/-- Modelled from the spec: `regErrInternal` wraps an internal failure as
HTTP 500 per section 4.6, the body carrying the sanitized message. -/
def regErrInternal (msg : String) : RegError := ⟨500, "INTERNAL", msg⟩

/-- Modelled from the spec: `regErrManifestInvalid` maps a malformed
manifest to HTTP 400 with code `MANIFEST_INVALID` per section 4.6. -/
def regErrManifestInvalid (msg : String) : RegError := ⟨400, "MANIFEST_INVALID", msg⟩

/-- Modelled from the spec: `regErrDeniedQuotaExceeded` maps quota
exceedance to HTTP 403 with code `DENIED` per sections 4.6 and 9. -/
def regErrDeniedQuotaExceeded : RegError := ⟨403, "DENIED", "quota exceeded"⟩

/-- Model of `manifest.Blob`: a digest and a size. -/
structure Blob where
  digest : Hash
  size : Int
deriving DecidableEq

/-- Model of `manifest.Manifest`: a content type and the blob holding the
manifest bytes. -/
structure Manifest where
  contentType : String
  blob : Blob
deriving DecidableEq

/-- Result of `manifestHandler.Get`: the record, `ErrNameUnknown`,
`ErrManifestUnknown`, or another error. -/
inductive ManifestGetResult where
  | found (m : Manifest)
  | nameUnknown
  | manifestUnknown
  | otherErr (msg : String)
deriving DecidableEq

/-- Result of `blobHandler.Get`: a byte reader, a `blob.RedirectError`, or
another error. -/
inductive BlobGetResult where
  | ok (bytes : List Nat)
  | redirect (location : String) (code : Nat)
  | err (msg : String)
deriving DecidableEq

/-- HTTP response as the handlers write it: status, the headers they set,
and the body bytes. -/
structure Response where
  status : Nat
  headers : List (String × String)
  body : List Nat
deriving DecidableEq

/-- Collaborators consumed by `handleGet`. -/
structure GetEnv where
  mGet : String → String → ManifestGetResult
  bGet : String → Hash → Bool → BlobGetResult

/-- Model of `manifests.handleGet` (manifest.go lines 337-383): look up
the manifest record, fetch its blob (redirects allowed), and either
redirect, fail, or stream the bytes with the digest, content-type and
length headers.  The audit side effect never changes the response. -/
def handleGet (env : GetEnv) (repo target : String) : Except RegError Response :=
  match env.mGet repo target with
  | ManifestGetResult.nameUnknown => Except.error regErrNameUnknown
  | ManifestGetResult.manifestUnknown => Except.error regErrManifestUnknown
  | ManifestGetResult.otherErr e => Except.error (regErrInternal e)
  | ManifestGetResult.found m =>
    match env.bGet repo m.blob.digest true with
    | BlobGetResult.redirect loc code => Except.ok ⟨code, [("Location", loc)], []⟩
    | BlobGetResult.err _ => Except.error regErrManifestUnknown
    | BlobGetResult.ok bs =>
      Except.ok ⟨200,
        [("Docker-Content-Digest", m.blob.digest.string),
         ("Content-Type", m.contentType),
         ("Content-Length", toString bs.length)], bs⟩

/-- Collaborators consumed by `handleHead`: the manifest store, whether
the blob handler implements `blob.BlobStatHandler`, and its `Stat`. -/
structure HeadEnv where
  mGet : String → String → ManifestGetResult
  hasStatHandler : Bool
  bStat : String → Hash → Except String Int

/-- Model of `manifests.handleHead` (manifest.go lines 385-418): look up
the record; a blob handler without `Stat` is an internal error; a failing
`Stat` call returns `regErrManifestUnknown` (the "TODO: More nuanced"
branch); otherwise answer 200 with digest, content-type and length. -/
def handleHead (env : HeadEnv) (repo target : String) : Except RegError Response :=
  match env.mGet repo target with
  | ManifestGetResult.nameUnknown => Except.error regErrNameUnknown
  | ManifestGetResult.manifestUnknown => Except.error regErrManifestUnknown
  | ManifestGetResult.otherErr e => Except.error (regErrInternal e)
  | ManifestGetResult.found m =>
    if env.hasStatHandler then
      match env.bStat repo m.blob.digest with
      | Except.error _ => Except.error regErrManifestUnknown
      | Except.ok l =>
        Except.ok ⟨200,
          [("Docker-Content-Digest", m.blob.digest.string),
           ("Content-Type", m.contentType),
           ("Content-Length", toString l)], []⟩
    else Except.error (regErrInternal "cannot stat blob")

/-- Digest of the buffered PUT body: `v1.SHA256` always yields a hash
with algorithm `sha256`, whose hex part is abstracted as a function of the
bytes. -/
def sha256Digest (sha : List Nat → String) (body : List Nat) : Hash := ⟨"sha256", sha body⟩

/-- Manifest record built by `handlePut` from the request: content type
from the `Content-Type` header, the body digest and the buffer length. -/
def putRecord (sha : List Nat → String) (contentType : String) (body : List Nat) : Manifest :=
  ⟨contentType, ⟨sha256Digest sha body, Int.ofNat body.length⟩⟩

/-- Model of `checkIncompatibleManifest` (manifest.go lines 541-551)
applied to the body bytes: an unmarshalling failure (invalid JSON, a
non-object top level, or a `blobs` field that is not an array) is
`MANIFEST_INVALID`, and so is a non-empty top-level `blobs` array.  An
absent, `null` or empty `blobs` array passes. -/
def checkIncompatibleManifest (jsonParse : List Nat → Option Json) (data : List Nat) :
    Option RegError :=
  match jsonParse data with
  | none => some (regErrManifestInvalid "invalid json")
  | some (Json.obj fields) =>
    match getField fields "blobs" with
    | none => none
    | some Json.null => none
    | some (Json.arr xs) =>
      if xs.length > 0 then
        some (regErrManifestInvalid "non-compliant manifest with blobs entry detected")
      else none
    | some _ => some (regErrManifestInvalid "invalid json")
  | some Json.null => none
  | some _ => some (regErrManifestInvalid "invalid json")

/-- Outcome of `manifestHandler.Put`: success, `apierrors.ErrQuotaExceeded`
or another error. -/
inductive PutErr where
  | quotaExceeded
  | other (msg : String)
deriving DecidableEq

/-- Collaborators consumed by `handlePut`: the manifest store (`Get` for
the dependency checks, `Put` for the transactional writes), whether the
blob handler implements `blob.BlobPutHandler`, and its `Put`. -/
structure PutEnv where
  mGet : String → String → ManifestGetResult
  hasBlobPutHandler : Bool
  bPut : String → Hash → String → List Nat → Option String
  mPut : String → String → Manifest → List Blob → Option PutErr

/-- Observable store mutation performed by `handlePut`: a blob-store `Put`
of the manifest bytes, or a manifest-store `Put` of the record under a
reference together with its dependency blobs. -/
inductive StoreOp where
  | blobPut (repo : String) (digest : Hash) (contentType : String) (bytes : List Nat)
  | manifestPut (repo : String) (reference : String) (mf : Manifest) (deps : List Blob)
deriving DecidableEq

/-- Dependency walk of an index PUT (manifest.go lines 450-467): skip
non-distributable descriptors, require every distributable image or index
sub-manifest to be present in the repo (any store error counts as
missing, yielding HTTP 404 `MANIFEST_UNKNOWN` naming the digest), collect
the found ones as dependency blobs, and skip other media types (the
logged TODO branch). -/
def collectIndexBlobs (mGet : String → String → ManifestGetResult) (repo : String) :
    List Descriptor → Except RegError (List Blob)
  | [] => Except.ok []
  | d :: rest =>
    if isDistributableMT d.mediaType then
      if isIndexMT d.mediaType || isImageMT d.mediaType then
        match mGet repo d.digest.string with
        | ManifestGetResult.found _ =>
          match collectIndexBlobs mGet repo rest with
          | Except.ok bs => Except.ok (⟨d.digest, d.size⟩ :: bs)
          | Except.error e => Except.error e
        | _ =>
          Except.error ⟨404, "MANIFEST_UNKNOWN",
            "Sub-manifest \"" ++ d.digest.string ++ "\" not found"⟩
      else collectIndexBlobs mGet repo rest
    else collectIndexBlobs mGet repo rest

/-- Dependency blobs of an image PUT (manifest.go lines 472-492): the
config, the subject when present, and every distributable layer. -/
def imageBlobs (m : ImageManifest) : List Blob :=
  ([⟨m.config.digest, m.config.size⟩] ++
    (match m.subject with
     | some s => [⟨s.digest, s.size⟩]
     | none => [])) ++
  ((m.layers.filter (fun d => isDistributableMT d.mediaType)).map
    (fun d => (⟨d.digest, d.size⟩ : Blob)))

/-- Dependency collection of `handlePut` (manifest.go lines 438-493),
dispatching on the request content type: index manifests are parsed and
walked by `collectIndexBlobs`, image manifests are parsed and yield
`imageBlobs`, any other content type collects nothing.  A parse failure
is `MANIFEST_INVALID`. -/
def computeBlobs (jsonParse : List Nat → Option Json)
    (mGet : String → String → ManifestGetResult)
    (repo contentType : String) (body : List Nat) : Except RegError (List Blob) :=
  if isIndexMT contentType then
    match parseIndexManifest (jsonParse body) with
    | none => Except.error (regErrManifestInvalid "invalid manifest")
    | some im => collectIndexBlobs mGet repo im.manifests
  else if isImageMT contentType then
    match parseManifest (jsonParse body) with
    | none => Except.error (regErrManifestInvalid "invalid manifest")
    | some m => Except.ok (imageBlobs m)
  else Except.ok []

/-- Combination of the two transactional `manifestHandler.Put` results via
`multierr.Combine` and `errors.Is(err, apierrors.ErrQuotaExceeded)`: the
combined error is quota-exceeded when either is. -/
def combinePut : Option PutErr → Option PutErr → Option PutErr
  | none, none => none
  | some PutErr.quotaExceeded, _ => some PutErr.quotaExceeded
  | _, some PutErr.quotaExceeded => some PutErr.quotaExceeded
  | some (PutErr.other m), _ => some (PutErr.other m)
  | none, some (PutErr.other m) => some (PutErr.other m)

/-- Model of `req.URL.JoinPath(digest).Path` on an already-clean request
path: append the element behind a single slash. -/
def joinPath (p s : String) : String :=
  if p.toList.getLast? == some '/' then p ++ s else p ++ "/" ++ s

/-- Model of `manifests.handlePut` (manifest.go lines 420-526).  Inputs:
the digest function, the JSON decoder, the collaborators, the repo and
target from the URL, the `Content-Type` header, the buffered body and the
request path.  Output: the handler result together with the list of
observable store mutations — the blob-store `Put` happens outside the
transaction; the two manifest-store `Put`s run inside `db.RunTx` and are
observable only when the transaction commits. -/
def handlePut (sha : List Nat → String) (jsonParse : List Nat → Option Json)
    (env : PutEnv) (repo target contentType : String) (body : List Nat)
    (reqPath : String) : Except RegError Response × List StoreOp :=
  match computeBlobs jsonParse env.mGet repo contentType body with
  | Except.error e => (Except.error e, [])
  | Except.ok blobs =>
    match checkIncompatibleManifest jsonParse body with
    | some e => (Except.error e, [])
    | none =>
      if env.hasBlobPutHandler then
        match env.bPut repo (sha256Digest sha body) contentType body with
        | some e =>
          (Except.error (regErrInternal e),
           [StoreOp.blobPut repo (sha256Digest sha body) contentType body])
        | none =>
          match combinePut
              (env.mPut repo (Hash.string (sha256Digest sha body))
                (putRecord sha contentType body) blobs)
              (env.mPut repo target (putRecord sha contentType body) blobs) with
          | some PutErr.quotaExceeded =>
            (Except.error regErrDeniedQuotaExceeded,
             [StoreOp.blobPut repo (sha256Digest sha body) contentType body])
          | some (PutErr.other e) =>
            (Except.error (regErrInternal e),
             [StoreOp.blobPut repo (sha256Digest sha body) contentType body])
          | none =>
            (Except.ok ⟨201,
              [("Docker-Content-Digest", Hash.string (sha256Digest sha body)),
               ("OCI-Subject", Hash.string (sha256Digest sha body)),
               ("Location", joinPath reqPath (Hash.string (sha256Digest sha body)))], []⟩,
             [StoreOp.blobPut repo (sha256Digest sha body) contentType body,
              StoreOp.manifestPut repo (Hash.string (sha256Digest sha body))
                (putRecord sha contentType body) blobs,
              StoreOp.manifestPut repo target (putRecord sha contentType body) blobs])
      else (Except.error (regErrInternal "blob handler is not a BlobPutHandler"), [])

/-- Numeric value of a digit list, most significant first. -/
def digitsToNat (ds : List Char) : Nat :=
  ds.foldl (fun acc c => acc * 10 + (c.toNat - 48)) 0

/-- Sign and digit part of a `strconv.Atoi` input. -/
def atoiSign (s : String) : Bool × List Char :=
  match s.toList with
  | '-' :: rest => (true, rest)
  | '+' :: rest => (false, rest)
  | cs => (false, cs)

/-- Magnitude handling of `strconv.ParseInt` at 64 bits: an in-range value
parses, an out-of-range one saturates at the 64-bit bound and reports a
range error. -/
def atoiMag (neg : Bool) (v : Nat) : Int × Bool :=
  if neg then
    if v > 9223372036854775808 then (-9223372036854775808, false)
    else (-(Int.ofNat v), true)
  else
    if v > 9223372036854775807 then (9223372036854775807, false)
    else (Int.ofNat v, true)

/-- Model of Go `strconv.Atoi` (= `ParseInt`, base 10, 64-bit int):
returns the value and a success flag.  An empty or non-digit input is a
syntax error with value 0; an out-of-range input is a range error with
the saturated bound as value, as `ParseInt` documents. -/
def atoiGo (s : String) : Int × Bool :=
  if (atoiSign s).2.isEmpty || !(atoiSign s).2.all Char.isDigit then (0, false)
  else atoiMag (atoiSign s).1 (digitsToNat (atoiSign s).2)

/-- Lowercase hex digit for JSON control-character escapes. -/
def hexDigitChar (n : Nat) : Char :=
  if n < 10 then Char.ofNat (48 + n) else Char.ofNat (87 + n)

/-- Two-digit lowercase hex rendering of a byte. -/
def hexByte (n : Nat) : String :=
  String.singleton (hexDigitChar (n / 16)) ++ String.singleton (hexDigitChar (n % 16))

/-- Escaping of one character as Go `encoding/json` renders string
values (HTML-escaping mode of `json.Marshal`). -/
def escapeChar (c : Char) : String :=
  if c == '"' then "\\\""
  else if c == '\\' then "\\\\"
  else if c == '\n' then "\\n"
  else if c == '\r' then "\\r"
  else if c == '\t' then "\\t"
  else if c == '<' then "\\u003c"
  else if c == '>' then "\\u003e"
  else if c == '&' then "\\u0026"
  else if decide (c.toNat < 32) then "\\u00" ++ hexByte c.toNat
  else String.singleton c

/-- JSON string literal as `json.Marshal` renders it. -/
def jsonStringLit (s : String) : String :=
  "\"" ++ String.join (s.toList.map escapeChar) ++ "\""

/-- JSON array of strings as `json.Marshal` renders it. -/
def jsonStringArray (xs : List String) : String :=
  "[" ++ String.intercalate "," (xs.map jsonStringLit) ++ "]"

/-- Marshalled `listTags` struct: field order `name`, `tags` as declared
in manifest.go. -/
def listTagsBody (name : String) (tags : List String) : String :=
  "\x7b\"name\":" ++ jsonStringLit name ++ ",\"tags\":" ++ jsonStringArray tags ++ "\x7d"

/-- Marshalled `catalog` struct. -/
def catalogBody (repos : List String) : String :=
  "\x7b\"repositories\":" ++ jsonStringArray repos ++ "\x7d"

/-- UTF-8 bytes of a string, as Go counts `len(msg)`. -/
def strBytes (s : String) : List Nat := s.toUTF8.toList.map (fun b => b.toNat)

/-- Result of `manifestHandler.ListTags`. -/
inductive ListResult where
  | ok (items : List String)
  | nameUnknown
  | otherErr (msg : String)
deriving DecidableEq

/-- Collaborator consumed by `handleTags`. -/
structure TagsEnv where
  listTags : String → Int → String → ListResult

/-- Body of the tag-list handler once `n` is settled (manifest.go lines
179-200): call `ListTags`, map its errors, and on success write the
marshalled body with `Content-Length` set; the second component records
the `ListTags` invocation. -/
def tagsCall (env : TagsEnv) (repo : String) (n : Int) (last : String) :
    Except RegError Response × List (String × Int × String) :=
  (match env.listTags repo n last with
   | ListResult.nameUnknown => Except.error regErrNameUnknown
   | ListResult.otherErr e => Except.error (regErrInternal e)
   | ListResult.ok tags =>
     Except.ok ⟨200,
       [("Content-Length", toString (strBytes (listTagsBody repo tags)).length)],
       strBytes (listTagsBody repo tags)⟩,
   [(repo, n, last)])

/-- Model of `manifests.handleTags` for GET (manifest.go lines 165-200):
`n` defaults to 10000 when the query parameter is empty, a failing
`strconv.Atoi` is HTTP 400 `BAD_REQUEST` without touching the store,
otherwise the parsed value is used. -/
def handleTags (env : TagsEnv) (repo qn qlast : String) :
    Except RegError Response × List (String × Int × String) :=
  if qn == "" then tagsCall env repo 10000 qlast
  else
    match atoiGo qn with
    | (n, true) => tagsCall env repo n qlast
    | (_, false) => (Except.error ⟨400, "BAD_REQUEST", "parsing n"⟩, [])

/-- Collaborator consumed by `handleCatalog`: `manifestHandler.List`. -/
structure CatalogEnv where
  list : Int → Except String (List String)

/-- Model of `manifests.handleCatalog` for GET (manifest.go lines
206-232): `n` defaults to 10000 when the query parameter is empty, and
otherwise takes whatever `strconv.Atoi` returns, its error being
discarded.  The second component records the argument of the `List`
call. -/
def handleCatalog (env : CatalogEnv) (qn : String) :
    Except RegError Response × List Int :=
  (match env.list (if qn == "" then 10000 else (atoiGo qn).1) with
   | Except.error e => Except.error (regErrInternal e)
   | Except.ok repos =>
     Except.ok ⟨200,
       [("Content-Length", toString (strBytes (catalogBody repos)).length)],
       strBytes (catalogBody repos)⟩,
   [if qn == "" then 10000 else (atoiGo qn).1])

/-- Result of `manifestHandler.ListDigests`. -/
inductive DigestsResult where
  | ok (digests : List Hash)
  | nameUnknown
  | otherErr (msg : String)
deriving DecidableEq

/-- Collaborators consumed by `handleReferrers`. -/
structure ReferrersEnv where
  mListDigests : String → DigestsResult
  mGet : String → String → ManifestGetResult
  bGet : String → Hash → Bool → BlobGetResult

/-- Descriptor of the referrers response index (the fields
`handleReferrers` fills in a `v1.Descriptor`). -/
structure RDescriptor where
  mediaType : String
  size : Int
  digest : Hash
  artifactType : String
deriving DecidableEq

/-- OCI image index as `handleReferrers` marshals it. -/
structure OutIndex where
  schemaVersion : Nat
  mediaType : String
  manifests : List RDescriptor
deriving DecidableEq

/-- Referrers response: status, the `Content-Type` header, and the index
whose marshalling is the body. -/
structure ReferrersResponse where
  status : Nat
  contentType : String
  index : OutIndex
deriving DecidableEq

/-- Top-level `subject.digest` of a manifest body, as the tolerant
`json.Unmarshal` into `refPointer` observes it: `none` when the bytes are
not JSON, there is no `subject` object, or its digest does not parse, in
which case the loop skips the manifest. -/
def subjectDigest (j : Option Json) : Option Hash :=
  match j with
  | some (Json.obj fields) =>
    match getField fields "subject" with
    | some (Json.obj sf) =>
      match getField sf "digest" with
      | some (Json.str s) => newHash s
      | _ => none
    | _ => none
  | _ => none

/-- Top-level `config.mediaType` of a manifest body, as the best-effort
`json.Unmarshal` into `imageAsArtifact` observes it; any failure yields
the empty artifact type. -/
def artifactTypeOf (j : Option Json) : String :=
  match j with
  | some (Json.obj fields) =>
    match getField fields "config" with
    | some (Json.obj cf) =>
      match getField cf "mediaType" with
      | some (Json.str s) => s
      | _ => ""
    | _ => ""
  | _ => ""

/-- Loop body of `handleReferrers` (manifest.go lines 279-323) over the
listed digests: fetch each record (any store error is internal), fetch
its bytes without redirects (any blob error is HTTP 404 with code
`BAD_REQUEST`), skip manifests whose subject is absent or names another
digest, and append a descriptor for each match. -/
def referrersLoop (jsonParse : List Nat → Option Json) (env : ReferrersEnv)
    (repo target : String) : List Hash → Except RegError (List RDescriptor)
  | [] => Except.ok []
  | ref :: rest =>
    match env.mGet repo ref.string with
    | ManifestGetResult.found m =>
      match env.bGet repo m.blob.digest false with
      | BlobGetResult.ok bs =>
        match subjectDigest (jsonParse bs) with
        | none => referrersLoop jsonParse env repo target rest
        | some sd =>
          if sd.string == target then
            match referrersLoop jsonParse env repo target rest with
            | Except.ok ds =>
              Except.ok
                (⟨m.contentType, Int.ofNat bs.length, ref, artifactTypeOf (jsonParse bs)⟩ :: ds)
            | Except.error e => Except.error e
          else referrersLoop jsonParse env repo target rest
      | BlobGetResult.redirect loc _ => Except.error ⟨404, "BAD_REQUEST", loc⟩
      | BlobGetResult.err e => Except.error ⟨404, "BAD_REQUEST", e⟩
    | _ => Except.error (regErrInternal "manifest get failed")

/-- Model of `manifests.handleReferrers` for GET (manifest.go lines
238-335): validate the target digest (otherwise HTTP 400 `UNSUPPORTED`),
list the repo digests, walk them, and answer the OCI image index with
schema version 2 and the image-index content type. -/
def handleReferrers (jsonParse : List Nat → Option Json) (env : ReferrersEnv)
    (repo target : String) : Except RegError ReferrersResponse :=
  match newHash target with
  | none => Except.error ⟨400, "UNSUPPORTED", "Target must be a valid digest"⟩
  | some _ =>
    match env.mListDigests repo with
    | DigestsResult.nameUnknown => Except.error regErrNameUnknown
    | DigestsResult.otherErr e => Except.error (regErrInternal e)
    | DigestsResult.ok digests =>
      match referrersLoop jsonParse env repo target digests with
      | Except.error e => Except.error e
      | Except.ok ds => Except.ok ⟨200, ociImageIndex, ⟨2, ociImageIndex, ds⟩⟩

/-- Functional description of one loop step of `handleReferrers`: the
descriptor a listed digest contributes, or `none` when its manifest does
not refer to the target.  Used to characterise the loop output. -/
def describeRef (jsonParse : List Nat → Option Json) (env : ReferrersEnv)
    (repo target : String) (ref : Hash) : Option RDescriptor :=
  match env.mGet repo ref.string with
  | ManifestGetResult.found m =>
    match env.bGet repo m.blob.digest false with
    | BlobGetResult.ok bs =>
      match subjectDigest (jsonParse bs) with
      | some sd =>
        if sd.string == target then
          some ⟨m.contentType, Int.ofNat bs.length, ref, artifactTypeOf (jsonParse bs)⟩
        else none
      | none => none
    | _ => none
  | _ => none

/-- Modelled from the spec: combined state of the manifest store and the
blob store (section 6), whose database-backed implementations are not
under `src/`.  Both are association lists keyed by `(repo, reference)`
and `(repo, digest-string)`; `Put` prepends, so a lookup returns the most
recent record, which is the spec's overwrite semantics for tags. -/
structure StoreState where
  manifests : List ((String × String) × (Manifest × List Blob))
  blobs : List ((String × String) × (String × List Nat))

/-- Modelled from the spec: `manifestHandler.Get` over `StoreState`
(section 6: `Get(ctx, repo, reference) → Manifest | ErrNameUnknown |
ErrManifestUnknown`); a missing record is `ErrManifestUnknown`. -/
def storeMGet (st : StoreState) (repo ref : String) : ManifestGetResult :=
  match st.manifests.find? (fun e => e.1.1 == repo && e.1.2 == ref) with
  | some e => ManifestGetResult.found e.2.1
  | none => ManifestGetResult.manifestUnknown

/-- Modelled from the spec: `blobHandler.Get` over `StoreState` (section
6), delivering the stored bytes and never issuing a redirect. -/
def storeBGet (st : StoreState) (repo : String) (digest : Hash) (_allowRedirect : Bool) :
    BlobGetResult :=
  match st.blobs.find? (fun e => e.1.1 == repo && e.1.2 == digest.string) with
  | some e => BlobGetResult.ok e.2.2
  | none => BlobGetResult.err "blob not found"

/-- Effect of one store mutation on the modelled state. -/
def applyOp (st : StoreState) : StoreOp → StoreState
  | StoreOp.blobPut repo dg ct bs => ⟨st.manifests, ((repo, dg.string), (ct, bs)) :: st.blobs⟩
  | StoreOp.manifestPut repo ref mf deps => ⟨((repo, ref), (mf, deps)) :: st.manifests, st.blobs⟩

/-- Effect of a mutation list, applied in order. -/
def applyOps (st : StoreState) (ops : List StoreOp) : StoreState := ops.foldl applyOp st

/-- PUT collaborators over the modelled stores: dependency lookups read
`StoreState`, the blob handler supports `Put`, and both `Put`s succeed
(their state effect is delivered through the returned `StoreOp` list). -/
def specPutEnv (st : StoreState) : PutEnv :=
  ⟨storeMGet st, true, fun _ _ _ _ => none, fun _ _ _ _ => none⟩

/-- GET collaborators over the modelled stores. -/
def specGetEnv (st : StoreState) : GetEnv :=
  ⟨storeMGet st, storeBGet st⟩

/-- Sixty-four `a` characters: hex part of a well-formed digest used in
concrete instantiations. -/
def hex64a : String :=
  "aaaaaaaaaaaaaaaaaaaaaaaaaaaaaaaaaaaaaaaaaaaaaaaaaaaaaaaaaaaaaaaa"

/-- Sixty-four `b` characters. -/
def hex64b : String :=
  "bbbbbbbbbbbbbbbbbbbbbbbbbbbbbbbbbbbbbbbbbbbbbbbbbbbbbbbbbbbbbbbb"

/-- Sixty-four `c` characters. -/
def hex64c : String :=
  "cccccccccccccccccccccccccccccccccccccccccccccccccccccccccccccccc"

/-- Digest function used in concrete instantiations. -/
def shaA : List Nat → String := fun _ => hex64a

/-- Empty store state. -/
def emptyStore : StoreState := ⟨[], []⟩

/-- JSON decoder used by the round-trip instantiation: every body decodes
to an empty object. -/
def parseEmptyObj : List Nat → Option Json := fun _ => some (Json.obj [])

/-- Index-manifest descriptor with an unrecorded digest, for the missing
sub-manifest instantiation. -/
def descC2 : Descriptor := ⟨ociManifestSchema1, 2, ⟨"sha256", hex64a⟩⟩

/-- JSON decoder returning an index body whose single sub-manifest is
`descC2`. -/
def parseC2 : List Nat → Option Json :=
  fun _ => some (Json.obj [("manifests", Json.arr [Json.obj
    [("mediaType", Json.str ociManifestSchema1), ("size", Json.num 2),
     ("digest", Json.str ("sha256:" ++ hex64a))]])])

/-- PUT collaborators whose manifest store knows nothing and whose writes
succeed. -/
def putEnvAllUnknown : PutEnv :=
  ⟨fun _ _ => ManifestGetResult.manifestUnknown, true,
   fun _ _ _ _ => none, fun _ _ _ _ => none⟩

/-- HEAD collaborators with a record present, a stat-capable blob handler
and a failing `Stat` call. -/
def headEnvStatFails : HeadEnv :=
  ⟨fun _ _ => ManifestGetResult.found ⟨"ct", ⟨⟨"sha256", hex64a⟩, 2⟩⟩, true,
   fun _ _ => Except.error "stat failed"⟩

/-- HEAD collaborators with a record present and a blob handler that is
not a `BlobStatHandler`. -/
def headEnvNoStat : HeadEnv :=
  ⟨fun _ _ => ManifestGetResult.found ⟨"ct", ⟨⟨"sha256", hex64a⟩, 2⟩⟩, false,
   fun _ _ => Except.ok 2⟩

/-- GET collaborators with a record present and a blob backend failing
with a plain (non-redirect) error. -/
def getEnvBlobFails : GetEnv :=
  ⟨fun _ _ => ManifestGetResult.found ⟨"ct", ⟨⟨"sha256", hex64a⟩, 2⟩⟩,
   fun _ _ _ => BlobGetResult.err "backend failure"⟩

/-- JSON decoder returning a body with an empty top-level `blobs` array. -/
def parseEmptyBlobs : List Nat → Option Json :=
  fun _ => some (Json.obj [("blobs", Json.arr [])])

/-- JSON decoder returning a body with a non-empty top-level `blobs`
array. -/
def parseNonemptyBlobs : List Nat → Option Json :=
  fun _ => some (Json.obj [("blobs", Json.arr [Json.null])])

/-- JSON decoder rejecting every body as invalid JSON. -/
def parseNothing : List Nat → Option Json := fun _ => none

/-- Tag-list collaborator returning two tags for every query. -/
def tagsEnvTwo : TagsEnv := ⟨fun _ _ _ => ListResult.ok ["v1", "v2"]⟩

/-- Catalog collaborator returning no repositories. -/
def catalogEnvEmpty : CatalogEnv := ⟨fun _ => Except.ok []⟩

/-- Referrers target digest used in concrete instantiations. -/
def targetC4 : String := "sha256:" ++ hex64a

/-- Referrers collaborators listing two manifests: the one stored at the
`b` digest refers to `targetC4`, the one at the `c` digest has no
subject. -/
def refsEnvC4 : ReferrersEnv :=
  ⟨fun _ => DigestsResult.ok [⟨"sha256", hex64b⟩, ⟨"sha256", hex64c⟩],
   fun _ ref =>
     if ref == "sha256:" ++ hex64b then
       ManifestGetResult.found ⟨"ct1", ⟨⟨"sha256", hex64b⟩, 1⟩⟩
     else ManifestGetResult.found ⟨"ct2", ⟨⟨"sha256", hex64c⟩, 1⟩⟩,
   fun _ dg _ =>
     if dg.hex == hex64b then BlobGetResult.ok [1] else BlobGetResult.ok [2]⟩

/-- JSON decoder for the referrers instantiation: the bytes `[1]` carry a
subject naming `targetC4` and an artifact config, the bytes `[2]` carry
no subject. -/
def parseC4 : List Nat → Option Json :=
  fun bs =>
    if bs == [1] then
      some (Json.obj
        [("subject", Json.obj [("digest", Json.str targetC4)]),
         ("config", Json.obj [("mediaType", Json.str "application/x-artifact")])])
    else some (Json.obj [])

/-- Claim C9: when the manifest record exists but the blob store's `Get`
fails with an error that is not a redirect directive, `handleGet` answers
`MANIFEST_UNKNOWN` (HTTP 404), not `INTERNAL` (HTTP 500). -/
theorem get_blob_error_returns_manifest_unknown (env : GetEnv) (repo target : String)
    (m : Manifest) (e : String)
    (hm : env.mGet repo target = ManifestGetResult.found m)
    (hb : env.bGet repo m.blob.digest true = BlobGetResult.err e) :
    handleGet env repo target = Except.error regErrManifestUnknown ∧
    regErrManifestUnknown.status = 404 ∧ regErrManifestUnknown.status ≠ 500 := by
  refine ⟨?_, rfl, by decide⟩
  simp only [handleGet, hm, hb]

/-- Witness for C9 at a concrete environment. -/
theorem get_blob_error_returns_manifest_unknown_witness :
    handleGet getEnvBlobFails "acme/app" "v1" = Except.error regErrManifestUnknown ∧
    regErrManifestUnknown.status = 404 ∧ regErrManifestUnknown.status ≠ 500 :=
  get_blob_error_returns_manifest_unknown getEnvBlobFails "acme/app" "v1"
    ⟨"ct", ⟨⟨"sha256", hex64a⟩, 2⟩⟩ "backend failure" rfl rfl

/-- Counterexample to claim C3: with the manifest record present, a
stat-capable blob handler and a failing `Stat` call, `handleHead` answers
404 `MANIFEST_UNKNOWN`, not the claimed `INTERNAL` (HTTP 500). -/
theorem head_stat_error_returns_404 :
    handleHead headEnvStatFails "acme/app" "v1" = Except.error regErrManifestUnknown ∧
    regErrManifestUnknown.status = 404 ∧ (404 : Nat) ≠ 500 :=
  ⟨rfl, rfl, by decide⟩

/-- Claim C3 (amended): when the record exists, a blob handler that does
not implement `Stat` yields `INTERNAL` (HTTP 500), while a failing `Stat`
call yields `MANIFEST_UNKNOWN` (HTTP 404). -/
theorem head_stat_capability_and_error (env : HeadEnv) (repo target : String) (m : Manifest)
    (hm : env.mGet repo target = ManifestGetResult.found m) :
    (env.hasStatHandler = false →
      handleHead env repo target = Except.error (regErrInternal "cannot stat blob")) ∧
    (∀ e, env.hasStatHandler = true → env.bStat repo m.blob.digest = Except.error e →
      handleHead env repo target = Except.error regErrManifestUnknown) ∧
    (regErrInternal "cannot stat blob").status = 500 ∧ regErrManifestUnknown.status = 404 := by
  refine ⟨?_, ?_, rfl, rfl⟩
  · intro hs
    simp [handleHead, hm, hs]
  · intro e hs hb
    simp [handleHead, hm, hs, hb]

/-- Witness for the amended C3 at a concrete environment without a
`BlobStatHandler`. -/
theorem head_stat_capability_and_error_witness :
    handleHead headEnvNoStat "acme/app" "v1" =
      Except.error (regErrInternal "cannot stat blob") :=
  (head_stat_capability_and_error headEnvNoStat "acme/app" "v1"
    ⟨"ct", ⟨⟨"sha256", hex64a⟩, 2⟩⟩ rfl).1 rfl

/-- Claim C10: a PUT whose content type is neither an index nor an image
media type still rejects a body that is not valid JSON with
`MANIFEST_INVALID` (HTTP 400), through `checkIncompatibleManifest`, and
stores nothing. -/
theorem put_invalid_json_rejected (sha : List Nat → String)
    (jsonParse : List Nat → Option Json) (env : PutEnv)
    (repo target contentType : String) (body : List Nat) (reqPath : String)
    (hci : isIndexMT contentType = false) (hcim : isImageMT contentType = false)
    (hparse : jsonParse body = none) :
    ∃ msg, handlePut sha jsonParse env repo target contentType body reqPath =
      (Except.error ⟨400, "MANIFEST_INVALID", msg⟩, []) := by
  refine ⟨"invalid json", ?_⟩
  simp [handlePut, computeBlobs, hci, hcim, checkIncompatibleManifest, hparse,
    regErrManifestInvalid]

/-- Witness for C10 at a concrete environment. -/
theorem put_invalid_json_rejected_witness :
    ∃ msg, handlePut shaA parseNothing putEnvAllUnknown "acme/app" "v1" "text/plain" [0] "/p" =
      (Except.error ⟨400, "MANIFEST_INVALID", msg⟩, []) :=
  put_invalid_json_rejected shaA parseNothing putEnvAllUnknown "acme/app" "v1" "text/plain"
    [0] "/p" (by decide) (by decide) rfl

/-- Counterexample to claim C5: a PUT body whose top-level JSON has an
empty `blobs` array is not rejected — with writes succeeding it answers
201 and records blob and manifest state. -/
theorem empty_blobs_array_not_rejected :
    handlePut shaA parseEmptyBlobs putEnvAllUnknown "acme/app" "v1" "text/plain" [0] "/p" =
      (Except.ok ⟨201,
        [("Docker-Content-Digest", "sha256:" ++ hex64a),
         ("OCI-Subject", "sha256:" ++ hex64a),
         ("Location", "/p/" ++ ("sha256:" ++ hex64a))], []⟩,
       [StoreOp.blobPut "acme/app" ⟨"sha256", hex64a⟩ "text/plain" [0],
        StoreOp.manifestPut "acme/app" ("sha256:" ++ hex64a)
          ⟨"text/plain", ⟨⟨"sha256", hex64a⟩, 1⟩⟩ [],
        StoreOp.manifestPut "acme/app" "v1" ⟨"text/plain", ⟨⟨"sha256", hex64a⟩, 1⟩⟩ []]) := by
  rfl

/-- Claim C5 (amended): a PUT body whose top-level JSON has a non-empty
`blobs` array is rejected with `MANIFEST_INVALID` (HTTP 400) and nothing
is stored, provided dependency collection did not already fail; an empty
`blobs` array is not rejected. -/
theorem nonempty_blobs_array_rejected (sha : List Nat → String)
    (jsonParse : List Nat → Option Json) (env : PutEnv)
    (repo target contentType : String) (body : List Nat) (reqPath : String)
    (fields : List (String × Json)) (xs : List Json)
    (hparse : jsonParse body = some (Json.obj fields))
    (hblobs : getField fields "blobs" = some (Json.arr xs))
    (hne : xs ≠ [])
    (hdeps : ∃ bs, computeBlobs jsonParse env.mGet repo contentType body = Except.ok bs) :
    handlePut sha jsonParse env repo target contentType body reqPath =
      (Except.error
        (regErrManifestInvalid "non-compliant manifest with blobs entry detected"), []) := by
  rcases hdeps with ⟨bs, hbs⟩
  have hlen : 0 < xs.length := List.length_pos.mpr hne
  simp [handlePut, hbs, checkIncompatibleManifest, hparse, hblobs, hlen]

/-- Witness for the amended C5 at a concrete body. -/
theorem nonempty_blobs_array_rejected_witness :
    handlePut shaA parseNonemptyBlobs putEnvAllUnknown "acme/app" "v1" "text/plain" [0] "/p" =
      (Except.error
        (regErrManifestInvalid "non-compliant manifest with blobs entry detected"), []) :=
  nonempty_blobs_array_rejected shaA parseNonemptyBlobs putEnvAllUnknown "acme/app" "v1"
    "text/plain" [0] "/p" [("blobs", Json.arr [Json.null])] [Json.null] rfl rfl
    (by simp) ⟨[], rfl⟩

/-- Claim C6: every successful manifest PUT answers 201 Created with
`Docker-Content-Digest` and `OCI-Subject` both set to the SHA-256 digest
of the buffered body and `Location` set to the request path joined with
that digest. -/
theorem put_success_response_headers (sha : List Nat → String)
    (jsonParse : List Nat → Option Json) (env : PutEnv)
    (repo target contentType : String) (body : List Nat) (reqPath : String)
    (resp : Response) (ops : List StoreOp)
    (h : handlePut sha jsonParse env repo target contentType body reqPath =
      (Except.ok resp, ops)) :
    resp = ⟨201,
      [("Docker-Content-Digest", Hash.string (sha256Digest sha body)),
       ("OCI-Subject", Hash.string (sha256Digest sha body)),
       ("Location", joinPath reqPath (Hash.string (sha256Digest sha body)))], []⟩ := by
  unfold handlePut at h
  repeat' split at h
  all_goals simp_all

/-- Witness for C6 at a concrete PUT. -/
theorem put_success_response_headers_witness :
    Response.mk 201
      [("Docker-Content-Digest", "sha256:" ++ hex64a),
       ("OCI-Subject", "sha256:" ++ hex64a),
       ("Location", "/v2/acme/app/manifests/v1/" ++ ("sha256:" ++ hex64a))] [] =
    ⟨201,
      [("Docker-Content-Digest", Hash.string (sha256Digest shaA [0])),
       ("OCI-Subject", Hash.string (sha256Digest shaA [0])),
       ("Location", joinPath "/v2/acme/app/manifests/v1"
         (Hash.string (sha256Digest shaA [0])))], []⟩ :=
  put_success_response_headers shaA parseEmptyObj putEnvAllUnknown "acme/app" "v1"
    "text/plain" [0] "/v2/acme/app/manifests/v1"
    ⟨201,
      [("Docker-Content-Digest", "sha256:" ++ hex64a),
       ("OCI-Subject", "sha256:" ++ hex64a),
       ("Location", "/v2/acme/app/manifests/v1/" ++ ("sha256:" ++ hex64a))], []⟩
    [StoreOp.blobPut "acme/app" ⟨"sha256", hex64a⟩ "text/plain" [0],
     StoreOp.manifestPut "acme/app" ("sha256:" ++ hex64a)
       ⟨"text/plain", ⟨⟨"sha256", hex64a⟩, 1⟩⟩ [],
     StoreOp.manifestPut "acme/app" "v1" ⟨"text/plain", ⟨⟨"sha256", hex64a⟩, 1⟩⟩ []]
    rfl

/-- Claim C7: tag listing defaults `n` to 10000 when the query parameter
is absent, answers HTTP 400 `BAD_REQUEST` without calling the store when
`n` does not parse, and otherwise writes the marshalled
`\x7b"name", "tags"\x7d` body with `Content-Length` set to its byte
length. -/
theorem tags_n_handling (env : TagsEnv) (repo qn qlast : String) :
    ((handleTags env repo "" qlast).2 = [(repo, (10000 : Int), qlast)]) ∧
    ((atoiGo qn).2 = false → qn ≠ "" →
      handleTags env repo qn qlast =
        (Except.error ⟨400, "BAD_REQUEST", "parsing n"⟩, [])) ∧
    (∀ n tags, atoiGo qn = (n, true) → qn ≠ "" →
      env.listTags repo n qlast = ListResult.ok tags →
      handleTags env repo qn qlast =
        (Except.ok ⟨200,
          [("Content-Length", toString (strBytes (listTagsBody repo tags)).length)],
          strBytes (listTagsBody repo tags)⟩, [(repo, n, qlast)])) := by
  refine ⟨rfl, ?_, ?_⟩
  · intro hfail hne
    have hq : (qn == "") = false := by
      cases hqe : qn == "" with
      | false => rfl
      | true => exact absurd (by simpa using hqe) hne
    cases ha : atoiGo qn with
    | mk v ok =>
      rw [ha] at hfail
      simp at hfail
      subst hfail
      simp [handleTags, hq, ha]
  · intro n tags ha hne hlist
    have hq : (qn == "") = false := by
      cases hqe : qn == "" with
      | false => rfl
      | true => exact absurd (by simpa using hqe) hne
    simp [handleTags, hq, ha, tagsCall, hlist]

/-- Witness for C7 at a concrete environment: absent `n`, malformed `n`,
and a parsed `n` of 2. -/
theorem tags_n_handling_witness :
    ((handleTags tagsEnvTwo "acme/app" "" "").2 = [("acme/app", (10000 : Int), "")]) ∧
    handleTags tagsEnvTwo "acme/app" "x" "" =
      (Except.error ⟨400, "BAD_REQUEST", "parsing n"⟩, []) ∧
    handleTags tagsEnvTwo "acme/app" "2" "" =
      (Except.ok ⟨200,
        [("Content-Length", toString (strBytes (listTagsBody "acme/app" ["v1", "v2"])).length)],
        strBytes (listTagsBody "acme/app" ["v1", "v2"])⟩, [("acme/app", (2 : Int), "")]) :=
  ⟨(tags_n_handling tagsEnvTwo "acme/app" "" "").1,
   (tags_n_handling tagsEnvTwo "acme/app" "x" "").2.1 rfl (by decide),
   (tags_n_handling tagsEnvTwo "acme/app" "2" "").2.2 2 ["v1", "v2"] rfl (by decide) rfl⟩

/-- Counterexample to claim C8: for `n = "9223372036854775808"` (2^63),
`strconv.Atoi` fails with a range error yet returns the saturated value,
so the catalog store is called with 9223372036854775807, not with the
claimed 0. -/
theorem catalog_range_error_not_zero :
    (handleCatalog catalogEnvEmpty "9223372036854775808").2 = [(9223372036854775807 : Int)] ∧
    (atoiGo "9223372036854775808").2 = false ∧
    (9223372036854775807 : Int) ≠ 0 :=
  ⟨rfl, rfl, by decide⟩

/-- Claim C8 (amended): the catalog handler calls `List` with 10000 when
`n` is absent and otherwise with whatever value `strconv.Atoi` returns,
ignoring its error; on a failed parse that value is 0 for a syntax error
and the saturated 64-bit bound for a range error. -/
theorem catalog_n_fallback (env : CatalogEnv) (qn : String) :
    ((handleCatalog env qn).2 = [if qn == "" then (10000 : Int) else (atoiGo qn).1]) ∧
    ((atoiGo qn).2 = false →
      (atoiGo qn).1 = 0 ∨ (atoiGo qn).1 = (9223372036854775807 : Int) ∨
        (atoiGo qn).1 = (-9223372036854775808 : Int)) := by
  constructor
  · cases h : env.list (if qn == "" then (10000 : Int) else (atoiGo qn).1) with
    | error e => simp [handleCatalog, h]
    | ok repos => simp [handleCatalog, h]
  · intro hfail
    unfold atoiGo at hfail ⊢
    by_cases hsyn : ((atoiSign qn).2.isEmpty || !(atoiSign qn).2.all Char.isDigit) = true
    · simp [hsyn]
    · simp only [hsyn] at hfail ⊢
      simp only [Bool.not_eq_true] at hsyn
      rw [if_neg (by simp [hsyn])] at hfail ⊢
      unfold atoiMag at hfail ⊢
      by_cases hneg : (atoiSign qn).1 = true
      · simp only [hneg, if_true] at hfail ⊢
        by_cases hr : digitsToNat (atoiSign qn).2 > 9223372036854775808
        · simp [hr]
        · simp [hr] at hfail
      · simp only [Bool.not_eq_true] at hneg
        simp only [hneg] at hfail ⊢
        by_cases hr : digitsToNat (atoiSign qn).2 > 9223372036854775807
        · simp [hr]
        · simp [hr] at hfail

/-- Witness for the amended C8 at a syntactically malformed `n`. -/
theorem catalog_n_fallback_witness :
    ((handleCatalog catalogEnvEmpty "abc").2 =
      [if "abc" == "" then (10000 : Int) else (atoiGo "abc").1]) ∧
    ((atoiGo "abc").2 = false →
      (atoiGo "abc").1 = 0 ∨ (atoiGo "abc").1 = (9223372036854775807 : Int) ∨
        (atoiGo "abc").1 = (-9223372036854775808 : Int)) :=
  catalog_n_fallback catalogEnvEmpty "abc"

/-- Helper for C2: whenever some descriptor of the list is distributable,
of image or index media type, and not present in the store, the
dependency walk fails with the 404 error naming such a descriptor's
digest. -/
theorem collectIndexBlobs_missing (mGet : String → String → ManifestGetResult)
    (repo : String) (l : List Descriptor)
    (hmiss : ∃ d ∈ l, isDistributableMT d.mediaType = true ∧
      (isIndexMT d.mediaType || isImageMT d.mediaType) = true ∧
      ∀ m, mGet repo d.digest.string ≠ ManifestGetResult.found m) :
    ∃ d ∈ l, isDistributableMT d.mediaType = true ∧
      (isIndexMT d.mediaType || isImageMT d.mediaType) = true ∧
      (∀ m, mGet repo d.digest.string ≠ ManifestGetResult.found m) ∧
      collectIndexBlobs mGet repo l =
        Except.error ⟨404, "MANIFEST_UNKNOWN",
          "Sub-manifest \"" ++ d.digest.string ++ "\" not found"⟩ := by
  induction l with
  | nil => rcases hmiss with ⟨d, hd, _⟩; cases hd
  | cons d0 rest ih =>
    cases hdist : isDistributableMT d0.mediaType with
    | false =>
      rcases hmiss with ⟨d, hd, hx1, hx2, hx3⟩
      rcases List.mem_cons.mp hd with rfl | hdtail
      · rw [hdist] at hx1; cases hx1
      · rcases ih ⟨d, hdtail, hx1, hx2, hx3⟩ with ⟨d', hd', h1, h2, h3, h4⟩
        refine ⟨d', List.mem_cons_of_mem _ hd', h1, h2, h3, ?_⟩
        simp [collectIndexBlobs, hdist, h4]
    | true =>
      cases htype : (isIndexMT d0.mediaType || isImageMT d0.mediaType) with
      | false =>
        rcases hmiss with ⟨d, hd, hx1, hx2, hx3⟩
        rcases List.mem_cons.mp hd with rfl | hdtail
        · rw [htype] at hx2; cases hx2
        · rcases ih ⟨d, hdtail, hx1, hx2, hx3⟩ with ⟨d', hd', h1, h2, h3, h4⟩
          refine ⟨d', List.mem_cons_of_mem _ hd', h1, h2, h3, ?_⟩
          simp [collectIndexBlobs, hdist, htype, h4]
      | true =>
        cases hg : mGet repo d0.digest.string with
        | found m =>
          rcases hmiss with ⟨d, hd, hx1, hx2, hx3⟩
          rcases List.mem_cons.mp hd with rfl | hdtail
          · exact absurd hg (hx3 m)
          · rcases ih ⟨d, hdtail, hx1, hx2, hx3⟩ with ⟨d', hd', h1, h2, h3, h4⟩
            refine ⟨d', List.mem_cons_of_mem _ hd', h1, h2, h3, ?_⟩
            simp [collectIndexBlobs, hdist, htype, hg, h4]
        | nameUnknown =>
          refine ⟨d0, List.mem_cons_self _ _, hdist, htype, ?_, ?_⟩
          · intro m hc; rw [hg] at hc; cases hc
          · simp [collectIndexBlobs, hdist, htype, hg]
        | manifestUnknown =>
          refine ⟨d0, List.mem_cons_self _ _, hdist, htype, ?_, ?_⟩
          · intro m hc; rw [hg] at hc; cases hc
          · simp [collectIndexBlobs, hdist, htype, hg]
        | otherErr e =>
          refine ⟨d0, List.mem_cons_self _ _, hdist, htype, ?_, ?_⟩
          · intro m hc; rw [hg] at hc; cases hc
          · simp [collectIndexBlobs, hdist, htype, hg]

/-- Claim C2: a PUT whose content type is an index media type and whose
body references a distributable image or index sub-manifest that is not
recorded in the repo fails with HTTP 404 `MANIFEST_UNKNOWN` naming the
offending digest, and neither the blob-store `Put` nor the
manifest-store `Put` is reached. -/
theorem index_missing_child_rejected (sha : List Nat → String)
    (jsonParse : List Nat → Option Json) (env : PutEnv)
    (repo target contentType : String) (body : List Nat) (reqPath : String)
    (im : IndexManifest)
    (hct : isIndexMT contentType = true)
    (hparse : parseIndexManifest (jsonParse body) = some im)
    (hmiss : ∃ d ∈ im.manifests, isDistributableMT d.mediaType = true ∧
      (isIndexMT d.mediaType || isImageMT d.mediaType) = true ∧
      ∀ m, env.mGet repo d.digest.string ≠ ManifestGetResult.found m) :
    ∃ d ∈ im.manifests,
      handlePut sha jsonParse env repo target contentType body reqPath =
        (Except.error ⟨404, "MANIFEST_UNKNOWN",
          "Sub-manifest \"" ++ d.digest.string ++ "\" not found"⟩, []) := by
  rcases collectIndexBlobs_missing env.mGet repo im.manifests hmiss with
    ⟨d, hd, _, _, _, herr⟩
  refine ⟨d, hd, ?_⟩
  simp [handlePut, computeBlobs, hct, hparse, herr]

/-- Witness for C2 at a concrete index body whose single sub-manifest is
unknown to the store. -/
theorem index_missing_child_rejected_witness :
    ∃ d ∈ (IndexManifest.mk [descC2]).manifests,
      handlePut shaA parseC2 putEnvAllUnknown "acme/app" "v1" ociImageIndex [0] "/p" =
        (Except.error ⟨404, "MANIFEST_UNKNOWN",
          "Sub-manifest \"" ++ d.digest.string ++ "\" not found"⟩, []) :=
  index_missing_child_rejected shaA parseC2 putEnvAllUnknown "acme/app" "v1" ociImageIndex
    [0] "/p" ⟨[descC2]⟩ rfl rfl
    ⟨descC2, List.mem_cons_self _ _, rfl, rfl, fun m hc => by cases hc⟩

/-- Helper for C4: a successful referrers loop yields exactly the
descriptors `describeRef` assigns to the listed digests, in order. -/
theorem referrersLoop_ok (jsonParse : List Nat → Option Json) (env : ReferrersEnv)
    (repo target : String) (l : List Hash) (ds : List RDescriptor)
    (h : referrersLoop jsonParse env repo target l = Except.ok ds) :
    ds = l.filterMap (describeRef jsonParse env repo target) := by
  induction l generalizing ds with
  | nil =>
    simp only [referrersLoop] at h
    cases h
    simp
  | cons ref rest ih =>
    rw [List.filterMap_cons]
    unfold referrersLoop at h
    cases hg : env.mGet repo ref.string with
    | found m =>
      simp only [hg] at h
      cases hb : env.bGet repo m.blob.digest false with
      | ok bs =>
        simp only [hb] at h
        cases hsd : subjectDigest (jsonParse bs) with
        | none =>
          simp only [hsd] at h
          simp only [describeRef, hg, hb, hsd]
          exact ih ds h
        | some sd =>
          simp only [hsd] at h
          cases hmatch : sd.string == target with
          | false =>
            simp only [hmatch, Bool.false_eq_true, if_false] at h
            simp only [describeRef, hg, hb, hsd, hmatch, Bool.false_eq_true, if_false]
            exact ih ds h
          | true =>
            simp only [hmatch, if_true] at h
            cases hrest : referrersLoop jsonParse env repo target rest with
            | error e => simp only [hrest] at h; exact Except.noConfusion h
            | ok ds0 =>
              simp only [hrest] at h
              cases h
              simp only [describeRef, hg, hb, hsd, hmatch, if_true]
              rw [ih ds0 hrest]
      | redirect loc code => simp only [hb] at h; exact Except.noConfusion h
      | err e => simp only [hb] at h; exact Except.noConfusion h
    | nameUnknown => simp only [hg] at h; exact Except.noConfusion h
    | manifestUnknown => simp only [hg] at h; exact Except.noConfusion h
    | otherErr e => simp only [hg] at h; exact Except.noConfusion h

/-- Claim C4: a successful referrers query answers HTTP 200 with the OCI
image-index content type, an index with schema version 2 and the
image-index media type, whose manifests are exactly the descriptors the
repo's listed digests contribute — `describeRef` assigns a descriptor
`(record.contentType, body length, digest, config.mediaType or empty)`
precisely to the manifests whose top-level `subject.digest` equals the
target, and `none` to the rest. -/
theorem referrers_index_contents (jsonParse : List Nat → Option Json)
    (env : ReferrersEnv) (repo target : String) (r : ReferrersResponse)
    (h : handleReferrers jsonParse env repo target = Except.ok r) :
    r.status = 200 ∧ r.contentType = ociImageIndex ∧
    r.index.schemaVersion = 2 ∧ r.index.mediaType = ociImageIndex ∧
    ∃ refs, env.mListDigests repo = DigestsResult.ok refs ∧
      r.index.manifests = refs.filterMap (describeRef jsonParse env repo target) := by
  unfold handleReferrers at h
  cases hh : newHash target with
  | none => simp only [hh] at h; exact Except.noConfusion h
  | some t0 =>
    simp only [hh] at h
    cases hl : env.mListDigests repo with
    | nameUnknown => simp only [hl] at h; exact Except.noConfusion h
    | otherErr e => simp only [hl] at h; exact Except.noConfusion h
    | ok refs =>
      simp only [hl] at h
      cases hloop : referrersLoop jsonParse env repo target refs with
      | error e => simp only [hloop] at h; exact Except.noConfusion h
      | ok ds =>
        simp only [hloop] at h
        cases h
        exact ⟨rfl, rfl, rfl, rfl, refs, rfl,
          referrersLoop_ok jsonParse env repo target refs ds hloop⟩

/-- Witness for C4 at a concrete environment with one matching and one
non-matching manifest. -/
theorem referrers_index_contents_witness :
    (ReferrersResponse.mk 200 ociImageIndex
        ⟨2, ociImageIndex,
         [⟨"ct1", 1, ⟨"sha256", hex64b⟩, "application/x-artifact"⟩]⟩).status = 200 ∧
    (ReferrersResponse.mk 200 ociImageIndex
        ⟨2, ociImageIndex,
         [⟨"ct1", 1, ⟨"sha256", hex64b⟩, "application/x-artifact"⟩]⟩).contentType =
      ociImageIndex ∧
    (OutIndex.mk 2 ociImageIndex
        [⟨"ct1", 1, ⟨"sha256", hex64b⟩, "application/x-artifact"⟩]).schemaVersion = 2 ∧
    (OutIndex.mk 2 ociImageIndex
        [⟨"ct1", 1, ⟨"sha256", hex64b⟩, "application/x-artifact"⟩]).mediaType =
      ociImageIndex ∧
    ∃ refs, refsEnvC4.mListDigests "acme/app" = DigestsResult.ok refs ∧
      (OutIndex.mk 2 ociImageIndex
        [⟨"ct1", 1, ⟨"sha256", hex64b⟩, "application/x-artifact"⟩]).manifests =
        refs.filterMap (describeRef parseC4 refsEnvC4 "acme/app" targetC4) :=
  referrers_index_contents parseC4 refsEnvC4 "acme/app" targetC4
    ⟨200, ociImageIndex,
     ⟨2, ociImageIndex, [⟨"ct1", 1, ⟨"sha256", hex64b⟩, "application/x-artifact"⟩]⟩⟩
    rfl

/-- Helper for C1: every successful PUT performs exactly the blob write
under the body digest followed by, inside the committed transaction, the
two manifest writes under the digest and under the target, sharing one
dependency set. -/
theorem handlePut_ok_ops (sha : List Nat → String)
    (jsonParse : List Nat → Option Json) (env : PutEnv)
    (repo target contentType : String) (body : List Nat) (reqPath : String)
    (resp : Response) (ops : List StoreOp)
    (h : handlePut sha jsonParse env repo target contentType body reqPath =
      (Except.ok resp, ops)) :
    ∃ deps,
      ops = [StoreOp.blobPut repo (sha256Digest sha body) contentType body,
        StoreOp.manifestPut repo (Hash.string (sha256Digest sha body))
          (putRecord sha contentType body) deps,
        StoreOp.manifestPut repo target (putRecord sha contentType body) deps] := by
  unfold handlePut at h
  repeat' split at h
  all_goals simp_all
  exact ⟨_, h.2.symm⟩

/-- Helper for C1: after the three store mutations of a successful PUT,
a GET through the modelled stores of either the target or the digest
string returns the stored bytes with the record's digest, content type
and length. -/
theorem specGet_after_put (st : StoreState) (repo : String) (dg : Hash)
    (ct : String) (body : List Nat) (mf : Manifest) (deps : List Blob)
    (target q : String)
    (hdg : mf.blob.digest = dg) (hq : q = target ∨ q = Hash.string dg) :
    handleGet (specGetEnv (applyOps st
      [StoreOp.blobPut repo dg ct body,
       StoreOp.manifestPut repo (Hash.string dg) mf deps,
       StoreOp.manifestPut repo target mf deps])) repo q =
      Except.ok ⟨200,
        [("Docker-Content-Digest", Hash.string mf.blob.digest),
         ("Content-Type", mf.contentType),
         ("Content-Length", toString body.length)], body⟩ := by
  rcases hq with rfl | rfl
  · simp [handleGet, specGetEnv, storeMGet, storeBGet, applyOps, applyOp,
      List.find?, hdg]
  · by_cases ht : target = Hash.string dg
    · subst ht
      simp [handleGet, specGetEnv, storeMGet, storeBGet, applyOps, applyOp,
        List.find?, hdg]
    · have hbf : (target == Hash.string dg) = false := beq_eq_false_iff_ne.mpr ht
      simp [handleGet, specGetEnv, storeMGet, storeBGet, applyOps, applyOp,
        List.find?, hdg, hbf]

/-- Claim C1: a successful PUT of body B records the manifest under both
its SHA-256 digest and the target inside one transaction, and a
subsequent GET by the target or by the digest returns B byte-for-byte
with `Docker-Content-Digest` equal to the digest.  The store semantics
(section 6 of the spec) are supplied by `StoreState`. -/
theorem put_then_get_roundtrip (sha : List Nat → String)
    (jsonParse : List Nat → Option Json) (st : StoreState)
    (repo target contentType : String) (body : List Nat) (reqPath : String)
    (resp : Response) (ops : List StoreOp)
    (h : handlePut sha jsonParse (specPutEnv st) repo target contentType body reqPath =
      (Except.ok resp, ops)) :
    ∃ deps,
      ops = [StoreOp.blobPut repo (sha256Digest sha body) contentType body,
        StoreOp.manifestPut repo (Hash.string (sha256Digest sha body))
          (putRecord sha contentType body) deps,
        StoreOp.manifestPut repo target (putRecord sha contentType body) deps] ∧
      handleGet (specGetEnv (applyOps st ops)) repo target =
        Except.ok ⟨200,
          [("Docker-Content-Digest", Hash.string (sha256Digest sha body)),
           ("Content-Type", contentType),
           ("Content-Length", toString body.length)], body⟩ ∧
      handleGet (specGetEnv (applyOps st ops)) repo (Hash.string (sha256Digest sha body)) =
        Except.ok ⟨200,
          [("Docker-Content-Digest", Hash.string (sha256Digest sha body)),
           ("Content-Type", contentType),
           ("Content-Length", toString body.length)], body⟩ := by
  obtain ⟨deps, hops⟩ := handlePut_ok_ops sha jsonParse (specPutEnv st) repo target
    contentType body reqPath resp ops h
  subst hops
  exact ⟨deps, rfl,
    specGet_after_put st repo (sha256Digest sha body) contentType body
      (putRecord sha contentType body) deps target target rfl (Or.inl rfl),
    specGet_after_put st repo (sha256Digest sha body) contentType body
      (putRecord sha contentType body) deps target
      (Hash.string (sha256Digest sha body)) rfl (Or.inr rfl)⟩

/-- Witness for C1 at a concrete PUT into the empty store. -/
theorem put_then_get_roundtrip_witness :
    ∃ deps,
      [StoreOp.blobPut "acme/app" ⟨"sha256", hex64a⟩ "application/foo" [1, 2, 3],
       StoreOp.manifestPut "acme/app" ("sha256:" ++ hex64a)
         ⟨"application/foo", ⟨⟨"sha256", hex64a⟩, 3⟩⟩ [],
       StoreOp.manifestPut "acme/app" "v1"
         ⟨"application/foo", ⟨⟨"sha256", hex64a⟩, 3⟩⟩ []] =
        [StoreOp.blobPut "acme/app" (sha256Digest shaA [1, 2, 3]) "application/foo" [1, 2, 3],
         StoreOp.manifestPut "acme/app" (Hash.string (sha256Digest shaA [1, 2, 3]))
           (putRecord shaA "application/foo" [1, 2, 3]) deps,
         StoreOp.manifestPut "acme/app" "v1"
           (putRecord shaA "application/foo" [1, 2, 3]) deps] ∧
      handleGet (specGetEnv (applyOps emptyStore
          [StoreOp.blobPut "acme/app" ⟨"sha256", hex64a⟩ "application/foo" [1, 2, 3],
           StoreOp.manifestPut "acme/app" ("sha256:" ++ hex64a)
             ⟨"application/foo", ⟨⟨"sha256", hex64a⟩, 3⟩⟩ [],
           StoreOp.manifestPut "acme/app" "v1"
             ⟨"application/foo", ⟨⟨"sha256", hex64a⟩, 3⟩⟩ []])) "acme/app" "v1" =
        Except.ok ⟨200,
          [("Docker-Content-Digest", Hash.string (sha256Digest shaA [1, 2, 3])),
           ("Content-Type", "application/foo"),
           ("Content-Length", toString (List.length [1, 2, 3]))], [1, 2, 3]⟩ ∧
      handleGet (specGetEnv (applyOps emptyStore
          [StoreOp.blobPut "acme/app" ⟨"sha256", hex64a⟩ "application/foo" [1, 2, 3],
           StoreOp.manifestPut "acme/app" ("sha256:" ++ hex64a)
             ⟨"application/foo", ⟨⟨"sha256", hex64a⟩, 3⟩⟩ [],
           StoreOp.manifestPut "acme/app" "v1"
             ⟨"application/foo", ⟨⟨"sha256", hex64a⟩, 3⟩⟩ []])) "acme/app"
          (Hash.string (sha256Digest shaA [1, 2, 3])) =
        Except.ok ⟨200,
          [("Docker-Content-Digest", Hash.string (sha256Digest shaA [1, 2, 3])),
           ("Content-Type", "application/foo"),
           ("Content-Length", toString (List.length [1, 2, 3]))], [1, 2, 3]⟩ :=
  put_then_get_roundtrip shaA parseEmptyObj emptyStore "acme/app" "v1" "application/foo"
    [1, 2, 3] "/v2/acme/app/manifests/v1"
    ⟨201,
      [("Docker-Content-Digest", "sha256:" ++ hex64a),
       ("OCI-Subject", "sha256:" ++ hex64a),
       ("Location", "/v2/acme/app/manifests/v1/" ++ ("sha256:" ++ hex64a))], []⟩
    [StoreOp.blobPut "acme/app" ⟨"sha256", hex64a⟩ "application/foo" [1, 2, 3],
     StoreOp.manifestPut "acme/app" ("sha256:" ++ hex64a)
       ⟨"application/foo", ⟨⟨"sha256", hex64a⟩, 3⟩⟩ [],
     StoreOp.manifestPut "acme/app" "v1" ⟨"application/foo", ⟨⟨"sha256", hex64a⟩, 3⟩⟩ []]
    rfl

end Registry
